import Mathlib

/-!
Shallow embedding of the 2D renderer core of the p5 repository
(`src/p5/sketch/renderer2d.py`) and proofs about it.

Vertices are kept abstract as a type parameter `V`: the renderer never
computes with vertex coordinates in the code under study, it only copies
and rearranges them.  Numpy index arrays are modelled as Lean lists
(`List Nat` for unsigned mesh index buffers, `List Int` for border edge
index columns, which the source builds with negative offsets).  Numpy
operations that can raise (`hstack` of mismatched columns, broadcasting
of incompatible 1-D shapes, `vstack` of an empty array) are modelled with
`Except String`.
-/

namespace P5

/-- Shape kind tags (`SType` in `p5.core.constants`). -/
inductive SType where
  | POINTS
  | LINES
  | LINE_STRIP
  | TRIANGLES
  | TRIANGLE_STRIP
  | TRIANGLE_FAN
  | QUADS
  | QUAD_STRIP
  | TESS
deriving DecidableEq, Repr

/-- A shape as consumed by `get_render_primitives` / `Renderer2D.render`:
kind tag, vertex list, contour lists (TESS holes), the `isinstance(shape, Arc)`
test result, the arc mode, and the style attributes read by `render`.
Colors and stroke attributes are opaque data (the renderer only copies them). -/
structure Shape (V : Type) where
  shape_type : SType
  vertices : List V
  contours : List (List V) := []
  is_arc : Bool := false
  arc_mode : Option String := none
  fill : Option Nat := none
  stroke : Option Nat := none
  stroke_weight : Int := 1
  stroke_cap : Int := 0
  stroke_join : Int := 0
deriving DecidableEq

/-- A render primitive `[type, vertices, idx]`.  `linesP` carries the index
buffer of a line primitive: a list of polyline segments (rows of an
`(n,2)` edge array, or the single `arange` segment of
`_get_line_from_verts`).  `meshP` carries a flat `uint32` index buffer.
`pointsBug` models the malformed primitive appended by the POINTS branch of
`get_render_primitives` (the source passes the output list where a vertex
array is expected); consuming it in `render` raises, which the embedding
reflects when the transform step runs. -/
inductive RenderPrimitive (V : Type) where
  | linesP (vertices : List V) (idx : List (List Int))
  | meshP (gl_name : String) (vertices : List V) (idx : List Nat)
  | pointsBug
deriving DecidableEq

/-- The `(vertices, idx, stroke, stroke_weight, stroke_cap, stroke_join)`
tuple stored in the draw queue for a "lines" entry. -/
structure LinePayload (V : Type) where
  vertices : List V
  idx : List (List Int)
  stroke : Option Nat
  stroke_weight : Int
  stroke_cap : Int
  stroke_join : Int
deriving DecidableEq

/-- The `(vertices, idx, fill)` tuple stored in the draw queue for a
non-"lines" entry. -/
structure MeshPayload (V : Type) where
  vertices : List V
  idx : List Nat
  fill : Option Nat
deriving DecidableEq

/-- The payload part of a draw-queue entry (`entry[1]` in the source). -/
inductive QPayload (V : Type) where
  | lineD (p : LinePayload V)
  | meshD (p : MeshPayload V)
deriving DecidableEq

/-- A draw-queue entry `(stype, payload)`. -/
structure DrawQueueEntry (V : Type) where
  stype : String
  payload : QPayload V
deriving DecidableEq

/-- The renderer state the claims are about: the draw queue plus the two
framebuffer textures, identified by opaque ids (the swap at the end of
`draw_loop` exchanges the attribute values, never the texture data). -/
structure R2DState (V : Type) where
  draw_queue : List (DrawQueueEntry V) := []
  fbuffer_tex_front : Nat := 0
  fbuffer_tex_back : Nat := 1
deriving DecidableEq

/-- External collaborators and global renderer flags read by
`get_render_primitives` and `render`: the fill/stroke toggles, the
tessellation engine (`p5.tess`, an injected capability returning a
primitive list), and the vertex transform applied by
`Renderer2D._transform_vertices` (matrix work the claims never inspect). -/
structure RenderCfg (V : Type) where
  fill_enabled : Bool
  stroke_enabled : Bool
  tess : List V → List (List V) → List (RenderPrimitive V)
  tf : List V → List V

/-- A draw call recorded by `flush_geometry`: either a `render_line(queue)`
call or a `render_default(stype, queue)` call. -/
inductive Dispatch (V : Type) where
  | renderLineD (queue : List (QPayload V))
  | renderDefaultD (stype : String) (queue : List (QPayload V))
deriving DecidableEq

/-! ### Numpy array helpers -/

/-- `np.arange(n)` as a `Nat` list. -/
def npArangeN (n : Nat) : List Nat := List.range n

/-- `np.arange(a, b, step)` as a `Nat` list (`step > 0`). -/
def npArangeStepN (a b step : Nat) : List Nat :=
  (List.range ((b - a + step - 1) / step)).map (fun k => a + k * step)

/-- `np.repeat(xs, k)` (each element repeated `k` times in place). -/
def npRepeatN (xs : List Nat) (k : Nat) : List Nat :=
  xs.flatMap (fun x => List.replicate k x)

/-- `np.tile(pat, k)` (the whole pattern repeated `k` times). -/
def npTileN (pat : List Nat) (k : Nat) : List Nat :=
  (List.replicate k pat).flatten

/-- Numpy addition of two 1-D `Nat` arrays with broadcasting: equal lengths
add elementwise, a length-1 operand broadcasts, anything else raises. -/
def npAddN (a b : List Nat) : Except String (List Nat) :=
  if a.length = b.length then Except.ok (List.zipWith (· + ·) a b)
  else if a.length = 1 then Except.ok (b.map (fun x => a.headD 0 + x))
  else if b.length = 1 then Except.ok (a.map (fun x => x + b.headD 0))
  else Except.error "operands could not be broadcast together"

/-- `np.arange(n)` as an `Int` list. -/
def npArangeI (n : Nat) : List Int := (List.range n).map (Nat.cast : Nat → Int)

/-- `np.arange(a, b)` as an `Int` list. -/
def npArangeFromI (a b : Nat) : List Int :=
  (List.range (b - a)).map (fun k => (Nat.cast (a + k) : Int))

/-- `np.arange(a, b, step)` as an `Int` list (`step > 0`). -/
def npArangeStepI (a b step : Nat) : List Int :=
  (List.range ((b - a + step - 1) / step)).map (fun k => (Nat.cast (a + k * step) : Int))

/-- `np.tile(pat, k)` over `Int`. -/
def npTileI (pat : List Int) (k : Nat) : List Int :=
  (List.replicate k pat).flatten

/-- Numpy addition of two 1-D `Int` arrays with broadcasting. -/
def npAddI (a b : List Int) : Except String (List Int) :=
  if a.length = b.length then Except.ok (List.zipWith (· + ·) a b)
  else if a.length = 1 then Except.ok (b.map (fun x => a.headD 0 + x))
  else if b.length = 1 then Except.ok (a.map (fun x => x + b.headD 0))
  else Except.error "operands could not be broadcast together"

/-! ### Shape validation (`_check_shape`) -/

/-- Error text of `_not_enough_vertices`. -/
def notEnoughVerticesMsg (n : Nat) : String :=
  "Need at least " ++ toString n ++ " vertices"

/-- Error text of `_wrong_multiple`. -/
def wrongMultipleMsg (n : Nat) : String :=
  "requires the number of vertices to be a multiple of " ++ toString n

/-- `_check_shape` (renderer2d.py lines 103-117): the three minimum-count
assertions followed by the two multiple assertions, raising
(`Except.error`) at the first violated one. -/
def checkShape {V : Type} (shape : Shape V) : Except String Unit :=
  let n := shape.vertices.length
  let minCheck : Except String Unit :=
    if shape.shape_type = SType.TRIANGLES ∨ shape.shape_type = SType.TRIANGLE_FAN ∨
        shape.shape_type = SType.TRIANGLE_STRIP then
      if 3 ≤ n then Except.ok () else Except.error (notEnoughVerticesMsg 3)
    else if shape.shape_type = SType.LINES ∨ shape.shape_type = SType.LINE_STRIP then
      if 2 ≤ n then Except.ok () else Except.error (notEnoughVerticesMsg 2)
    else if shape.shape_type = SType.QUADS ∨ shape.shape_type = SType.QUAD_STRIP then
      if 4 ≤ n then Except.ok () else Except.error (notEnoughVerticesMsg 4)
    else Except.ok ()
  match minCheck with
  | Except.error e => Except.error e
  | Except.ok _ =>
    match (if shape.shape_type = SType.TRIANGLES then
            (if n % 3 = 0 then Except.ok () else Except.error (wrongMultipleMsg 3))
          else Except.ok ()) with
    | Except.error e => Except.error e
    | Except.ok _ =>
      if shape.shape_type = SType.QUADS then
        (if n % 4 = 0 then Except.ok () else Except.error (wrongMultipleMsg 4))
      else Except.ok ()

/-- The vertex-count constraint the specification documents per shape kind:
minimum 3 for the triangle family, 2 for the line family, 4 for the quad
family, and exact multiples of 3 / 4 for TRIANGLES / QUADS. -/
def vertexCountOK : SType → Nat → Prop
  | SType.TRIANGLES, n => 3 ≤ n ∧ n % 3 = 0
  | SType.TRIANGLE_STRIP, n => 3 ≤ n
  | SType.TRIANGLE_FAN, n => 3 ≤ n
  | SType.LINES, n => 2 ≤ n
  | SType.LINE_STRIP, n => 2 ≤ n
  | SType.QUADS, n => 4 ≤ n ∧ n % 4 = 0
  | SType.QUAD_STRIP, n => 4 ≤ n
  | SType.POINTS, _ => True
  | SType.TESS, _ => True

instance (t : SType) (n : Nat) : Decidable (vertexCountOK t n) := by
  unfold vertexCountOK
  cases t <;> infer_instance

/-! ### Primitive constructors (`_get_line_from_verts`, `_get_line_from_indices`,
`_get_borders`, `_get_meshes`, `get_render_primitives`) -/

/-- `_get_line_from_verts`: `['lines', vertices, [np.arange(len(vertices))]]`
— a single polyline segment chaining the vertices in order. -/
def getLineFromVerts {V : Type} (vertices : List V) : RenderPrimitive V :=
  RenderPrimitive.linesP vertices [npArangeI vertices.length]

/-- `_get_line_from_indices`: `np.hstack((np.vstack(start), np.vstack(end)))`.
`np.vstack` of an empty index column raises, and `np.hstack` raises when the
two columns have different lengths; otherwise the result is the `(n, 2)`
array whose rows are the `(start, end)` edge pairs. -/
def getLineFromIndices {V : Type} (vertices : List V) (s e : List Int) :
    Except String (RenderPrimitive V) :=
  if s.isEmpty then Except.error "need at least one array to concatenate"
  else if e.isEmpty then Except.error "need at least one array to concatenate"
  else if s.length = e.length then
    Except.ok (RenderPrimitive.linesP vertices ((s.zip e).map (fun p => [p.1, p.2])))
  else Except.error "all the input array dimensions must match exactly"

/-- `_get_borders` (renderer2d.py lines 119-156): per-kind start/end edge
index columns stacked into one lines primitive, or polyline primitives for
LINE_STRIP and TESS. -/
def getBorders {V : Type} (shape : Shape V) : Except String (List (RenderPrimitive V)) :=
  let n := shape.vertices.length
  match shape.shape_type with
  | SType.TRIANGLES => do
    let s := npArangeI n
    let e ← npAddI (npArangeI n) (npTileI [1, 1, -2] (n / 3))
    let p ← getLineFromIndices shape.vertices s e
    pure [p]
  | SType.TRIANGLE_STRIP => do
    let s := npArangeI (n - 1) ++ npArangeI (n - 2)
    let e := npArangeFromI 1 n ++ npArangeFromI 2 n
    let p ← getLineFromIndices shape.vertices s e
    pure [p]
  | SType.TRIANGLE_FAN => do
    let s := List.replicate (n - 1) (0 : Int) ++ npArangeFromI 1 (n - 1)
    let e := npArangeFromI 1 n ++ npArangeFromI 2 n
    let p ← getLineFromIndices shape.vertices s e
    pure [p]
  | SType.QUADS => do
    let s := npArangeI n
    let e ← npAddI (npArangeI n) (npTileI [1, 1, 1, -3] (n / 4))
    let p ← getLineFromIndices shape.vertices s e
    pure [p]
  | SType.QUAD_STRIP => do
    let s := npArangeStepI 0 n 2 ++ npArangeI (n - 2)
    let e := npArangeStepI 1 n 2 ++ npArangeFromI 2 n
    let p ← getLineFromIndices shape.vertices s e
    pure [p]
  | SType.LINES => do
    let s := npArangeStepI 0 n 2
    let e := npArangeStepI 1 n 2
    let p ← getLineFromIndices shape.vertices s e
    pure [p]
  | SType.LINE_STRIP => pure [getLineFromVerts shape.vertices]
  | SType.TESS =>
    pure (getLineFromVerts shape.vertices :: shape.contours.map getLineFromVerts)
  | SType.POINTS => pure []

/-- `_get_meshes` (renderer2d.py lines 159-184).  The simple kinds reuse the
vertex order as a sequential index buffer under the lower-cased kind name
(QUAD_STRIP drawn as triangle_strip); QUADS synthesizes the 6-per-quad
triangle index buffer with `np.repeat`/`np.tile`; TESS delegates to the
tessellation engine. -/
def getMeshes {V : Type} (cfg : RenderCfg V) (shape : Shape V) :
    Except String (List (RenderPrimitive V)) :=
  let n := shape.vertices.length
  match shape.shape_type with
  | SType.TRIANGLES =>
    pure [RenderPrimitive.meshP "triangles" shape.vertices (npArangeN n)]
  | SType.TRIANGLE_STRIP =>
    pure [RenderPrimitive.meshP "triangle_strip" shape.vertices (npArangeN n)]
  | SType.TRIANGLE_FAN =>
    pure [RenderPrimitive.meshP "triangle_fan" shape.vertices (npArangeN n)]
  | SType.QUAD_STRIP =>
    pure [RenderPrimitive.meshP "triangle_strip" shape.vertices (npArangeN n)]
  | SType.QUADS => do
    let idx ← npAddN (npRepeatN (npArangeStepN 0 n 4) 6) (npTileN [0, 1, 2, 0, 2, 3] (n / 4))
    pure [RenderPrimitive.meshP "triangles" shape.vertices idx]
  | SType.TESS => pure (cfg.tess shape.vertices shape.contours)
  | _ => pure []

/-- `get_render_primitives` (renderer2d.py lines 187-214): `_check_shape`
first, then the Arc branch (fill meshes, then mode-specific borders) or the
generic branch (POINTS bug primitive, fill meshes, stroke borders). -/
def getRenderPrimitives {V : Type} (cfg : RenderCfg V) (shape : Shape V) :
    Except String (List (RenderPrimitive V)) := do
  let _ ← checkShape shape
  if shape.is_arc then
    let meshes ← if cfg.fill_enabled then getMeshes cfg shape else pure []
    let borders ←
      if cfg.stroke_enabled then
        if shape.arc_mode = some "CHORD" ∨ shape.arc_mode = some "OPEN" then
          getBorders shape
        else if shape.arc_mode = none then
          pure [getLineFromVerts (shape.vertices.drop 1)]
        else if shape.arc_mode = some "PIE" then
          pure [getLineFromVerts shape.vertices]
        else pure []
      else pure []
    pure (meshes ++ borders)
  else
    let pts := if shape.shape_type = SType.POINTS then [RenderPrimitive.pointsBug] else []
    let meshes ← if cfg.fill_enabled then getMeshes cfg shape else pure []
    let borders ← if cfg.stroke_enabled then getBorders shape else pure []
    pure (pts ++ meshes ++ borders)

/-! ### Enqueue and render (`_add_to_draw_queue`, `Renderer2D.render`) -/

/-- `Renderer2D._add_to_draw_queue`: an entry whose stype is `'lines'` keeps
the 6-tuple stroke payload, every other entry the 3-tuple fill payload.
The `stype == 'lines'` test of the source coincides with the `linesP`
constructor: every primitive the program builds with kind `'lines'` carries
the segment-style index buffer. -/
def addToDrawQueue {V : Type} (dq : List (DrawQueueEntry V)) (prim : RenderPrimitive V)
    (fill stroke : Option Nat) (w c j : Int) : List (DrawQueueEntry V) :=
  match prim with
  | RenderPrimitive.linesP verts idx =>
    dq ++ [⟨"lines", QPayload.lineD ⟨verts, idx, stroke, w, c, j⟩⟩]
  | RenderPrimitive.meshP gl verts idx =>
    dq ++ [⟨gl, QPayload.meshD ⟨verts, idx, fill⟩⟩]
  | RenderPrimitive.pointsBug => dq

/-- The per-primitive transform step of `Renderer2D.render`
(`np.hstack([vertices, np.ones(...)])` then `_transform_vertices`): it maps
the abstract transform over the vertex array and raises a TypeError on the
malformed POINTS primitive, whose vertex slot is not an array. -/
def transformPrimVerts {V : Type} (cfg : RenderCfg V) :
    RenderPrimitive V → Except String (RenderPrimitive V)
  | RenderPrimitive.linesP verts idx => Except.ok (RenderPrimitive.linesP (cfg.tf verts) idx)
  | RenderPrimitive.meshP gl verts idx => Except.ok (RenderPrimitive.meshP gl (cfg.tf verts) idx)
  | RenderPrimitive.pointsBug => Except.error "TypeError: len of unsized object"

/-- The `for obj in obj_list` loop of `Renderer2D.render`: transform each
primitive, append it to the draw queue, stop with the exception if a step
raises (entries already appended stay, matching exception propagation). -/
def renderLoop {V : Type} (cfg : RenderCfg V) (fill stroke : Option Nat) (w c j : Int) :
    R2DState V → List (RenderPrimitive V) → R2DState V × Option String
  | st, [] => (st, none)
  | st, p :: rest =>
    match transformPrimVerts cfg p with
    | Except.error e => (st, some e)
    | Except.ok p2 =>
      renderLoop cfg fill stroke w c j
        { st with draw_queue := addToDrawQueue st.draw_queue p2 fill stroke w c j } rest

/-- `Renderer2D.render` (renderer2d.py lines 331-347): classification first
(`get_render_primitives`, which can raise before anything is queued), then
the transform-and-enqueue loop.  The second component is the propagated
exception, if any. -/
def renderS {V : Type} (cfg : RenderCfg V) (st : R2DState V) (shape : Shape V) :
    R2DState V × Option String :=
  match getRenderPrimitives cfg shape with
  | Except.error e => (st, some e)
  | Except.ok objs =>
    renderLoop cfg shape.fill shape.stroke shape.stroke_weight shape.stroke_cap
      shape.stroke_join st objs

/-! ### Flush (`Renderer2D.flush_geometry`) -/

/-- The loop body state of `flush_geometry`: `current_queue` is extended
with the entry's payload, the entry is dispatched, and `current_queue` is
reset to `[]` before the next iteration. -/
def flushAux {V : Type} : List (QPayload V) → List (DrawQueueEntry V) → List (Dispatch V)
  | _, [] => []
  | current_queue, e :: rest =>
    let cq := current_queue ++ [e.payload]
    (if e.stype = "lines" then Dispatch.renderLineD cq
     else Dispatch.renderDefaultD e.stype cq) :: flushAux [] rest

/-- `Renderer2D.flush_geometry` (renderer2d.py lines 349-364), as the list
of draw calls it issues, in order.  (The queue itself is set to `[]`
afterwards.) -/
def flushGeometry {V : Type} (dq : List (DrawQueueEntry V)) : List (Dispatch V) :=
  flushAux [] dq

/-! ### Frame bracket (`Renderer2D.draw_loop`) -/

/-- `Renderer2D.draw_loop` (renderer2d.py lines 292-321) as a state
transformer: the body (user drawing between `yield` brackets) edits the
draw queue, `flush_geometry` empties it and yields the frame's draw calls,
and the final line swaps the two framebuffer texture attributes — only the
role labels move, the texture ids themselves are untouched. -/
def drawLoopFrame {V : Type} (body : List (DrawQueueEntry V) → List (DrawQueueEntry V))
    (st : R2DState V) : R2DState V × List (Dispatch V) :=
  let q := body st.draw_queue
  let ds := flushGeometry q
  ({ draw_queue := [],
     fbuffer_tex_front := st.fbuffer_tex_back,
     fbuffer_tex_back := st.fbuffer_tex_front }, ds)

/-! ### Line mesh builder (`Renderer2D.render_line`) -/

/-- The attribute arrays `render_line` accumulates before uploading them as
vertex buffers.  Marker and side values are the signs ±1 (floats in the
source, integers here). -/
structure LineMeshData (V : Type) where
  pos : List V := []
  posPrev : List V := []
  posCurr : List V := []
  posNext : List V := []
  markers : List Int := []
  side : List Int := []
  linewidth : List Int := []
  join_type : List Int := []
  cap_type : List Int := []
  color : List (Option Nat) := []
deriving DecidableEq

/-- Python list indexing with negative wrap-around (out-of-range indices
fall back to `default`; the claims only exercise in-range accesses, and
the theorems below compare both sides under the same lookup). -/
def pyGetV {V : Type} [Inhabited V] (xs : List V) (i : Int) : V :=
  if i < 0 then xs.getD (xs.length - (-i).toNat) default
  else xs.getD i.toNat default

/-- `line[0][segment[k]]`: the vertex addressed by position `k` of a
polyline segment. -/
def segVertex {V : Type} [Inhabited V] (verts : List V) (seg : List Int) (k : Nat) : V :=
  pyGetV verts (seg.getD k 0)

/-- The inner vertex pattern `for j in [0, 0, 1, 0, 1, 1]` of `render_line`:
the two triangles covering one segment. -/
def jPat : List Nat := [0, 0, 1, 0, 1, 1]

/-- One iteration of the `for i in range(len(segment) - 1)` loop of
`render_line` (renderer2d.py lines 394-414): the `j` loop appends one
posPrev/posNext/posCurr element per triangle vertex (with the
end-of-segment clamping tests `i + j - 1 >= 0` and `i + j + 1 <
len(segment)`), then the marker/side patterns and the six broadcast copies
of anchor position, line width, join, cap and color are appended. -/
def appendPairData {V : Type} [Inhabited V] (st : LineMeshData V) (l : LinePayload V)
    (seg : List Int) (i : Nat) : LineMeshData V :=
  let st := jPat.foldl (fun st j =>
    { st with
      posPrev := st.posPrev ++
        [if 1 ≤ i + j then segVertex l.vertices seg (i + j - 1)
         else segVertex l.vertices seg (i + j)],
      posNext := st.posNext ++
        [if i + j + 1 < seg.length then segVertex l.vertices seg (i + j + 1)
         else segVertex l.vertices seg (i + j)],
      posCurr := st.posCurr ++ [segVertex l.vertices seg (i + j)] }) st
  { st with
    markers := st.markers ++ [1, -1, -1, -1, 1, -1],
    side := st.side ++ [1, 1, -1, 1, -1, -1],
    pos := st.pos ++ List.replicate 6 (segVertex l.vertices seg i),
    linewidth := st.linewidth ++ List.replicate 6 l.stroke_weight,
    join_type := st.join_type ++ List.replicate 6 l.stroke_join,
    cap_type := st.cap_type ++ List.replicate 6 l.stroke_cap,
    color := st.color ++ List.replicate 6 l.stroke }

/-- The `for i in range(len(segment) - 1)` loop over one segment. -/
def renderLineSeg {V : Type} [Inhabited V] (l : LinePayload V) (st : LineMeshData V)
    (seg : List Int) : LineMeshData V :=
  (List.range (seg.length - 1)).foldl (fun st i => appendPairData st l seg i) st

/-- The `for segment in line[1]` loop over one queued line entry (the
`if len(line[1]) == 0: continue` guard is the empty fold). -/
def renderLineEntry {V : Type} [Inhabited V] (st : LineMeshData V) (l : LinePayload V) :
    LineMeshData V :=
  l.idx.foldl (renderLineSeg l) st

/-- The attribute arrays `Renderer2D.render_line` (renderer2d.py lines
366-441) builds for a queue of line entries, starting from empty lists. -/
def renderLineData {V : Type} [Inhabited V] (queue : List (LinePayload V)) : LineMeshData V :=
  queue.foldl renderLineEntry {}

/-! ### Characterization machinery for `render_line` -/

/-- Fieldwise concatenation of accumulated line mesh data. -/
def LineMeshData.app {V : Type} (a b : LineMeshData V) : LineMeshData V where
  pos := a.pos ++ b.pos
  posPrev := a.posPrev ++ b.posPrev
  posCurr := a.posCurr ++ b.posCurr
  posNext := a.posNext ++ b.posNext
  markers := a.markers ++ b.markers
  side := a.side ++ b.side
  linewidth := a.linewidth ++ b.linewidth
  join_type := a.join_type ++ b.join_type
  cap_type := a.cap_type ++ b.cap_type
  color := a.color ++ b.color

/-- Concatenation of a list of line mesh data chunks. -/
def joinChunks {V : Type} (ds : List (LineMeshData V)) : LineMeshData V :=
  ds.foldr LineMeshData.app {}

/-- The six-vertex chunk the specification describes for the consecutive
vertex pair `(i, i+1)` of a segment: the anchor (left) vertex broadcast six
times, previous/current/next positions per the `[0,0,1,0,1,1]` triangle
pattern with previous/next clamped to the vertex's own position at segment
ends, the fixed marker and side sign sequences, and the entry's width,
join, cap and color broadcast to all six vertices. -/
def pairData {V : Type} [Inhabited V] (l : LinePayload V) (seg : List Int) (i : Nat) :
    LineMeshData V where
  pos := List.replicate 6 (segVertex l.vertices seg i)
  posPrev := jPat.map (fun j =>
    if 1 ≤ i + j then segVertex l.vertices seg (i + j - 1)
    else segVertex l.vertices seg (i + j))
  posCurr := jPat.map (fun j => segVertex l.vertices seg (i + j))
  posNext := jPat.map (fun j =>
    if i + j + 1 < seg.length then segVertex l.vertices seg (i + j + 1)
    else segVertex l.vertices seg (i + j))
  markers := [1, -1, -1, -1, 1, -1]
  side := [1, 1, -1, 1, -1, -1]
  linewidth := List.replicate 6 l.stroke_weight
  join_type := List.replicate 6 l.stroke_join
  cap_type := List.replicate 6 l.stroke_cap
  color := List.replicate 6 l.stroke

/-- `pairData` uncurried over (entry, segment, pair index) triples. -/
def pairDataT {V : Type} [Inhabited V] (t : LinePayload V × List Int × Nat) :
    LineMeshData V :=
  pairData t.1 t.2.1 t.2.2

/-- Every (entry, segment, consecutive-pair-index) triple of a line queue,
in the order `render_line` visits them. -/
def linePairs {V : Type} (queue : List (LinePayload V)) :
    List (LinePayload V × List Int × Nat) :=
  queue.flatMap (fun l => l.idx.flatMap (fun seg =>
    (List.range (seg.length - 1)).map (fun i => (l, seg, i))))

theorem LineMeshData.app_empty {V : Type} (a : LineMeshData V) : a.app {} = a := by
  cases a
  simp [LineMeshData.app]

theorem LineMeshData.empty_app {V : Type} (a : LineMeshData V) :
    LineMeshData.app {} a = a := by
  cases a
  simp [LineMeshData.app]

theorem LineMeshData.app_assoc {V : Type} (a b c : LineMeshData V) :
    (a.app b).app c = a.app (b.app c) := by
  simp [LineMeshData.app]

theorem joinChunks_cons {V : Type} (d : LineMeshData V) (ds : List (LineMeshData V)) :
    joinChunks (d :: ds) = d.app (joinChunks ds) := rfl

theorem linePairs_cons {V : Type} (l : LinePayload V) (q : List (LinePayload V)) :
    linePairs (l :: q) =
      (l.idx.flatMap (fun seg =>
        (List.range (seg.length - 1)).map (fun i => (l, seg, i)))) ++ linePairs q := by
  simp [linePairs]

theorem joinChunks_append {V : Type} (xs ys : List (LineMeshData V)) :
    joinChunks (xs ++ ys) = (joinChunks xs).app (joinChunks ys) := by
  induction xs with
  | nil => simp [joinChunks, LineMeshData.empty_app]
  | cons d xs ih => simp [joinChunks, List.foldr_cons] at ih ⊢; rw [ih, LineMeshData.app_assoc]

theorem foldl_app_chunks {V : Type} {α : Type} (g : α → LineMeshData V) (xs : List α) :
    ∀ st : LineMeshData V, xs.foldl (fun s x => s.app (g x)) st = st.app (joinChunks (xs.map g)) := by
  induction xs with
  | nil => intro st; simp [joinChunks, LineMeshData.app_empty]
  | cons x xs ih =>
    intro st
    rw [List.foldl_cons, ih, List.map_cons]
    show (st.app (g x)).app (joinChunks (xs.map g)) = st.app (joinChunks (g x :: xs.map g))
    rw [LineMeshData.app_assoc]
    rfl

theorem appendPairData_eq_app {V : Type} [Inhabited V] (st : LineMeshData V)
    (l : LinePayload V) (seg : List Int) (i : Nat) :
    appendPairData st l seg i = st.app (pairData l seg i) := by
  cases st
  simp [appendPairData, pairData, LineMeshData.app, jPat, List.append_assoc]

theorem renderLineSeg_eq_app {V : Type} [Inhabited V] (l : LinePayload V)
    (st : LineMeshData V) (seg : List Int) :
    renderLineSeg l st seg =
      st.app (joinChunks (((List.range (seg.length - 1)).map (fun i => (l, seg, i))).map
        pairDataT)) := by
  unfold renderLineSeg
  simp only [appendPairData_eq_app]
  rw [foldl_app_chunks, List.map_map]
  rfl

theorem renderLineEntry_eq_app {V : Type} [Inhabited V] (st : LineMeshData V)
    (l : LinePayload V) :
    renderLineEntry st l =
      st.app (joinChunks ((l.idx.flatMap (fun seg =>
        (List.range (seg.length - 1)).map (fun i => (l, seg, i)))).map pairDataT)) := by
  unfold renderLineEntry
  have hbody : (renderLineSeg l) = fun (st : LineMeshData V) seg =>
      st.app (joinChunks (((List.range (seg.length - 1)).map (fun i => (l, seg, i))).map
        pairDataT)) := by
    funext st seg
    exact renderLineSeg_eq_app l st seg
  rw [hbody, foldl_app_chunks]
  congr 1
  induction l.idx with
  | nil => rfl
  | cons seg idx ih =>
    rw [List.map_cons, joinChunks_cons, List.flatMap_cons, List.map_append,
      joinChunks_append, ih]

theorem renderLineData_eq_join {V : Type} [Inhabited V] (queue : List (LinePayload V)) :
    renderLineData queue = joinChunks ((linePairs queue).map pairDataT) := by
  unfold renderLineData
  have hbody : (renderLineEntry : LineMeshData V → LinePayload V → LineMeshData V) =
      fun st l => st.app (joinChunks ((l.idx.flatMap (fun seg =>
        (List.range (seg.length - 1)).map (fun i => (l, seg, i)))).map pairDataT)) := by
    funext st l
    exact renderLineEntry_eq_app st l
  rw [hbody, foldl_app_chunks, LineMeshData.empty_app]
  induction queue with
  | nil => rfl
  | cons l q ih =>
    rw [List.map_cons, joinChunks_cons, linePairs_cons, List.map_append,
      joinChunks_append, ih]

theorem joinChunks_markers_pattern {V : Type} [Inhabited V]
    (ps : List (LinePayload V × List Int × Nat)) :
    (joinChunks (ps.map pairDataT)).markers =
      ps.flatMap (fun _ => [1, -1, -1, -1, 1, -1]) := by
  induction ps with
  | nil => rfl
  | cons p ps ih =>
    simp only [List.map_cons, List.flatMap_cons, joinChunks, List.foldr_cons] at ih ⊢
    show (pairDataT p).markers ++ _ = _
    rw [ih]
    rfl

theorem joinChunks_side_pattern {V : Type} [Inhabited V]
    (ps : List (LinePayload V × List Int × Nat)) :
    (joinChunks (ps.map pairDataT)).side =
      ps.flatMap (fun _ => [1, 1, -1, 1, -1, -1]) := by
  induction ps with
  | nil => rfl
  | cons p ps ih =>
    simp only [List.map_cons, List.flatMap_cons, joinChunks, List.foldr_cons] at ih ⊢
    show (pairDataT p).side ++ _ = _
    rw [ih]
    rfl

theorem joinChunks_posCurr_length {V : Type} [Inhabited V]
    (ps : List (LinePayload V × List Int × Nat)) :
    (joinChunks (ps.map pairDataT)).posCurr.length = 6 * ps.length := by
  induction ps with
  | nil => rfl
  | cons p ps ih =>
    simp only [List.map_cons, joinChunks, List.foldr_cons] at ih ⊢
    show ((pairDataT p).posCurr ++ _).length = _
    rw [List.length_append, ih]
    have : (pairDataT p).posCurr.length = 6 := by
      simp [pairDataT, pairData, jPat]
    rw [this, List.length_cons]
    ring

/-! ### Helper lemmas -/

theorem checkShape_ok_iff {V : Type} (s : Shape V) :
    checkShape s = Except.ok () ↔ vertexCountOK s.shape_type s.vertices.length := by
  obtain ⟨t, vs, _, _, _, _, _, _, _, _⟩ := s
  cases t <;> simp [checkShape, vertexCountOK] <;> split_ifs <;> simp_all

theorem checkShape_error_of_not_ok {V : Type} (s : Shape V)
    (h : ¬ vertexCountOK s.shape_type s.vertices.length) :
    ∃ e, checkShape s = Except.error e := by
  match hcs : checkShape s with
  | Except.ok u =>
    cases u
    exact absurd ((checkShape_ok_iff s).mp hcs) h
  | Except.error e => exact ⟨e, rfl⟩

theorem getRenderPrimitives_error {V : Type} (cfg : RenderCfg V) (s : Shape V) (e : String)
    (h : checkShape s = Except.error e) :
    getRenderPrimitives cfg s = Except.error e := by
  simp [getRenderPrimitives, h, Bind.bind, Except.bind]

theorem addToDrawQueue_append {V : Type} (dq : List (DrawQueueEntry V))
    (p : RenderPrimitive V) (f s : Option Nat) (w c j : Int) :
    ∃ d, addToDrawQueue dq p f s w c j = dq ++ d := by
  cases p
  · exact ⟨_, rfl⟩
  · exact ⟨_, rfl⟩
  · exact ⟨[], by simp [addToDrawQueue]⟩

theorem renderLoop_append {V : Type} (cfg : RenderCfg V) (f s : Option Nat) (w c j : Int)
    (objs : List (RenderPrimitive V)) :
    ∀ (st st2 : R2DState V), renderLoop cfg f s w c j st objs = (st2, none) →
      ∃ es, st2.draw_queue = st.draw_queue ++ es := by
  induction objs with
  | nil =>
    intro st st2 h
    simp [renderLoop] at h
    exact ⟨[], by simp [← h]⟩
  | cons p rest ih =>
    intro st st2 h
    unfold renderLoop at h
    cases ht : transformPrimVerts cfg p with
    | error e => rw [ht] at h; simp at h
    | ok p2 =>
      rw [ht] at h
      obtain ⟨es, hes⟩ := ih _ _ h
      obtain ⟨d, hd⟩ := addToDrawQueue_append st.draw_queue p2 f s w c j
      exact ⟨d ++ es, by rw [hes]; simp [hd, List.append_assoc]⟩

theorem renderS_ok_append {V : Type} (cfg : RenderCfg V) (st st2 : R2DState V) (s : Shape V)
    (h : renderS cfg st s = (st2, none)) :
    ∃ es, st2.draw_queue = st.draw_queue ++ es := by
  unfold renderS at h
  cases hg : getRenderPrimitives cfg s with
  | error e => rw [hg] at h; simp at h
  | ok objs =>
    rw [hg] at h
    exact renderLoop_append cfg _ _ _ _ _ objs st st2 h

theorem flushGeometry_append {V : Type} (a b : List (DrawQueueEntry V)) :
    flushGeometry (a ++ b) = flushGeometry a ++ flushGeometry b := by
  induction a with
  | nil => rfl
  | cons e a ih =>
    simp only [flushGeometry] at ih
    simp [flushGeometry, flushAux, ih]

/-- The quad-to-two-triangles split pattern the specification documents:
`(0, 1, 2, 0, 2, 3)` offset by `4k` for the `k`-th quad. -/
def quadTarget (N : Nat) : List Nat :=
  (List.range N).flatMap (fun k =>
    [4 * k, 4 * k + 1, 4 * k + 2, 4 * k, 4 * k + 2, 4 * k + 3])

theorem npArangeStepN_zero_four (N : Nat) :
    npArangeStepN 0 (4 * N) 4 = (List.range N).map (fun k => 4 * k) := by
  unfold npArangeStepN
  have h : (4 * N - 0 + 4 - 1) / 4 = N := by omega
  rw [h]
  exact List.map_congr_left (fun k _ => by omega)

theorem npRepeatN_length (xs : List Nat) (k : Nat) :
    (npRepeatN xs k).length = xs.length * k := by
  induction xs with
  | nil => simp [npRepeatN]
  | cons x xs ih =>
    simp only [npRepeatN, List.flatMap_cons, List.length_append, List.length_replicate,
      List.length_cons] at ih ⊢
    rw [ih, Nat.succ_mul]
    exact Nat.add_comm _ _

theorem npTileN_length (pat : List Nat) (k : Nat) :
    (npTileN pat k).length = k * pat.length := by
  induction k with
  | zero => simp [npTileN]
  | succ n ih =>
    simp only [npTileN, List.replicate_succ, List.flatten_cons, List.length_append] at ih ⊢
    rw [ih, Nat.succ_mul]
    exact Nat.add_comm _ _

theorem npRepeatN_append (xs ys : List Nat) (k : Nat) :
    npRepeatN (xs ++ ys) k = npRepeatN xs k ++ npRepeatN ys k := by
  simp [npRepeatN]

theorem npTileN_succ (pat : List Nat) (k : Nat) :
    npTileN pat (k + 1) = npTileN pat k ++ pat := by
  simp [npTileN, List.replicate_succ']

theorem npAddN_of_length {a b : List Nat} (h : a.length = b.length) :
    npAddN a b = Except.ok (List.zipWith (· + ·) a b) := by
  simp [npAddN, h]

theorem quads_idx_eval (N : Nat) :
    npAddN (npRepeatN ((List.range N).map (fun k => 4 * k)) 6)
        (npTileN [0, 1, 2, 0, 2, 3] N) = Except.ok (quadTarget N) := by
  have hlen : ∀ M : Nat, (npRepeatN ((List.range M).map (fun k => 4 * k)) 6).length =
      (npTileN [0, 1, 2, 0, 2, 3] M).length := by
    intro M
    rw [npRepeatN_length, npTileN_length]
    simp
  induction N with
  | zero => simp [npAddN, npRepeatN, npTileN, quadTarget]
  | succ n ih =>
    rw [npAddN_of_length (hlen (n + 1))]
    rw [npAddN_of_length (hlen n)] at ih
    have hih := Except.ok.inj ih
    rw [List.range_succ, List.map_append, npRepeatN_append, npTileN_succ,
      List.zipWith_append _ _ _ _ _ (hlen n), hih]
    simp [npRepeatN, List.replicate_succ, quadTarget, List.range_succ]

theorem quadTarget_length (N : Nat) : (quadTarget N).length = 6 * N := by
  induction N with
  | zero => rfl
  | succ n ih =>
    simp [quadTarget, List.range_succ] at ih ⊢
    omega

theorem quadTarget_le (N : Nat) : ∀ i ∈ quadTarget N, i ≤ 4 * N - 1 := by
  intro i hi
  simp only [quadTarget, List.mem_flatMap, List.mem_range] at hi
  obtain ⟨k, hk, hmem⟩ := hi
  simp only [List.mem_cons, List.not_mem_nil, or_false] at hmem
  omega

/-- The TRIANGLES border pattern the specification documents: per triangle
`k`, the three edges `(3k, 3k+1)`, `(3k+1, 3k+2)`, `(3k+2, 3k)` — start
indices in order, end offsets `(+1, +1, -2)`. -/
def triEdgeTarget (N : Nat) : List (List Int) :=
  (List.range N).flatMap (fun k =>
    [[((3 * k : Nat) : Int), ((3 * k + 1 : Nat) : Int)],
     [((3 * k + 1 : Nat) : Int), ((3 * k + 2 : Nat) : Int)],
     [((3 * k + 2 : Nat) : Int), ((3 * k : Nat) : Int)]])

/-- The end-index column `np.arange(n) + np.tile([1, 1, -2], n // 3)` for
`n = 3N`, written out per triangle. -/
def triEndCol (N : Nat) : List Int :=
  (List.range N).flatMap (fun k =>
    [((3 * k + 1 : Nat) : Int), ((3 * k + 2 : Nat) : Int), ((3 * k : Nat) : Int)])

theorem npArangeI_length (n : Nat) : (npArangeI n).length = n := by
  rw [npArangeI, List.length_map, List.length_range]

theorem npTileI_length (pat : List Int) (k : Nat) :
    (npTileI pat k).length = k * pat.length := by
  induction k with
  | zero => simp [npTileI]
  | succ n ih =>
    simp only [npTileI, List.replicate_succ, List.flatten_cons, List.length_append] at ih ⊢
    rw [ih, Nat.succ_mul]
    exact Nat.add_comm _ _

theorem npTileI_succ (pat : List Int) (k : Nat) :
    npTileI pat (k + 1) = npTileI pat k ++ pat := by
  simp [npTileI, List.replicate_succ']

theorem npAddI_of_length {a b : List Int} (h : a.length = b.length) :
    npAddI a b = Except.ok (List.zipWith (· + ·) a b) := by
  simp [npAddI, h]

theorem npArangeI_succ (m : Nat) : npArangeI (m + 1) = npArangeI m ++ [(m : Int)] := by
  simp [npArangeI, List.range_succ]

theorem npArangeI_add_three (m : Nat) :
    npArangeI (m + 3) = npArangeI m ++ [(m : Int), ((m + 1 : Nat) : Int), ((m + 2 : Nat) : Int)] := by
  rw [show m + 3 = m + 2 + 1 from rfl, npArangeI_succ, show m + 2 = m + 1 + 1 from rfl,
    npArangeI_succ, npArangeI_succ]
  simp

theorem triEndCol_length (N : Nat) : (triEndCol N).length = 3 * N := by
  induction N with
  | zero => rfl
  | succ n ih =>
    simp [triEndCol, List.range_succ] at ih ⊢
    omega

theorem triEndCol_eval (N : Nat) :
    List.zipWith (· + ·) (npArangeI (3 * N)) (npTileI [1, 1, -2] N) = triEndCol N := by
  induction N with
  | zero => rfl
  | succ n ih =>
    have hlen : (npArangeI (3 * n)).length = (npTileI [1, 1, -2] n).length := by
      rw [npArangeI_length, npTileI_length, List.length_cons, List.length_cons,
        List.length_cons, List.length_nil]
      omega
    rw [show 3 * (n + 1) = 3 * n + 3 by omega, npArangeI_add_three, npTileI_succ,
      List.zipWith_append _ _ _ _ _ hlen, ih]
    simp only [triEndCol, List.range_succ, List.flatMap_append, List.flatMap_cons,
      List.flatMap_nil, List.append_nil]
    congr 1
    simp [List.zipWith]
    omega

theorem tri_rows_eval (N : Nat) :
    ((npArangeI (3 * N)).zip (triEndCol N)).map (fun p => [p.1, p.2]) = triEdgeTarget N := by
  induction N with
  | zero => rfl
  | succ n ih =>
    have hlen : (npArangeI (3 * n)).length = (triEndCol n).length := by
      rw [npArangeI_length, triEndCol_length]
    rw [show 3 * (n + 1) = 3 * n + 3 by omega, npArangeI_add_three]
    rw [show triEndCol (n + 1) = triEndCol n ++
        [((3 * n + 1 : Nat) : Int), ((3 * n + 2 : Nat) : Int), ((3 * n : Nat) : Int)] by
      simp [triEndCol, List.range_succ]]
    rw [List.zip_append hlen, List.map_append, ih]
    simp only [triEdgeTarget, List.range_succ, List.flatMap_append, List.flatMap_cons,
      List.flatMap_nil, List.append_nil]
    congr 1

/-! ### Concrete fixtures for witnesses and counterexamples -/

/-- A renderer configuration with fill and stroke enabled, a trivial
tessellation engine, and the identity transform. -/
def natCfg : RenderCfg Nat := ⟨true, true, fun _ _ => [], id⟩

/-- A renderer configuration with stroke disabled. -/
def natCfgNoStroke : RenderCfg Nat := ⟨true, false, fun _ _ => [], id⟩

/-- An initial state with an already accumulated draw-queue entry. -/
def stPrior : R2DState Nat :=
  { draw_queue := [⟨"triangles", QPayload.meshD ⟨[5, 6, 7], [0, 1, 2], some 1⟩⟩] }

/-- A TRIANGLES shape with only two vertices (violates the minimum 3). -/
def badTriangle : Shape Nat := { shape_type := SType.TRIANGLES, vertices := [1, 2] }

/-- A valid one-triangle shape. -/
def triA : Shape Nat := { shape_type := SType.TRIANGLES, vertices := [10, 11, 12] }

/-- A second valid one-triangle shape. -/
def triB : Shape Nat := { shape_type := SType.TRIANGLES, vertices := [20, 21, 22] }

/-- The state after rendering `triA` from the empty state under
`natCfgNoStroke`. -/
def stAfterA : R2DState Nat :=
  { draw_queue := [⟨"triangles", QPayload.meshD ⟨[10, 11, 12], [0, 1, 2], none⟩⟩] }

/-- The state after rendering `triA` then `triB`. -/
def stAfterAB : R2DState Nat :=
  { draw_queue := [⟨"triangles", QPayload.meshD ⟨[10, 11, 12], [0, 1, 2], none⟩⟩,
                   ⟨"triangles", QPayload.meshD ⟨[20, 21, 22], [0, 1, 2], none⟩⟩] }

/-- A single-quad QUADS shape. -/
def quadShape : Shape Nat := { shape_type := SType.QUADS, vertices := [1, 2, 3, 4] }

/-- An Arc shape in PIE mode (a TRIANGLE_FAN whose first vertex is the
center). -/
def arcPie : Shape Nat :=
  { shape_type := SType.TRIANGLE_FAN, vertices := [30, 31, 32], is_arc := true,
    arc_mode := some "PIE" }

/-- A LINES shape with an odd vertex count. -/
def oddLines : Shape Nat := { shape_type := SType.LINES, vertices := [1, 2, 3] }

/-- A QUAD_STRIP shape with an odd vertex count. -/
def oddQuadStrip : Shape Nat :=
  { shape_type := SType.QUAD_STRIP, vertices := [1, 2, 3, 4, 5] }

/-- A first queued "lines" entry. -/
def lineEntryA : DrawQueueEntry Nat :=
  ⟨"lines", QPayload.lineD ⟨[1], [[0]], none, 1, 0, 0⟩⟩

/-- A second queued "lines" entry, adjacent to the first. -/
def lineEntryB : DrawQueueEntry Nat :=
  ⟨"lines", QPayload.lineD ⟨[2], [[0]], none, 1, 0, 0⟩⟩

/-! ### Claims -/

/-- C2: validation by `_check_shape` fails exactly when the vertex count
violates the kind's documented constraint — fewer than 3 vertices for
TRIANGLES/TRIANGLE_STRIP/TRIANGLE_FAN, fewer than 2 for LINES/LINE_STRIP,
fewer than 4 for QUADS/QUAD_STRIP, a count that is not a multiple of 3 for
TRIANGLES, or not a multiple of 4 for QUADS — and succeeds on every shape
satisfying the constraints. -/
theorem c2_check_shape_ok_iff_vertex_count_ok {V : Type} (s : Shape V) :
    checkShape s = Except.ok () ↔ vertexCountOK s.shape_type s.vertices.length :=
  checkShape_ok_iff s

/-- C3: rendering a shape whose vertex count violates its kind's constraint
fails with the validation error raised by `_check_shape` before anything is
enqueued: the resulting state is exactly the input state, so the draw queue
keeps the entries accumulated by prior render calls, and the propagated
exception is the validation error itself. -/
theorem c3_render_invalid_leaves_queue_unchanged {V : Type} (cfg : RenderCfg V)
    (st : R2DState V) (s : Shape V)
    (h : ¬ vertexCountOK s.shape_type s.vertices.length) :
    ∃ e, checkShape s = Except.error e ∧
      renderS cfg st s = (st, some e) ∧
      (renderS cfg st s).1.draw_queue = st.draw_queue := by
  obtain ⟨e, he⟩ := checkShape_error_of_not_ok s h
  refine ⟨e, he, ?_, ?_⟩ <;>
    simp [renderS, getRenderPrimitives_error cfg s e he]

theorem c3_witness :
    ¬ vertexCountOK badTriangle.shape_type badTriangle.vertices.length ∧
    ∃ e, checkShape badTriangle = Except.error e ∧
      renderS natCfg stPrior badTriangle = (stPrior, some e) ∧
      (renderS natCfg stPrior badTriangle).1.draw_queue = stPrior.draw_queue :=
  ⟨by decide,
   c3_render_invalid_leaves_queue_unchanged natCfg stPrior badTriangle (by decide)⟩

/-- C1 counterexample: the claim says `flush` groups a maximal run of
consecutive "lines" entries into one batched `render_line` call receiving
the whole run; on a queue of two adjacent "lines" entries the code instead
issues two `render_line` calls with singleton queues, never the batched
call. -/
theorem c1_counterexample :
    flushGeometry [lineEntryA, lineEntryB] =
      [Dispatch.renderLineD [lineEntryA.payload],
       Dispatch.renderLineD [lineEntryB.payload]] ∧
    flushGeometry [lineEntryA, lineEntryB] ≠
      [Dispatch.renderLineD [lineEntryA.payload, lineEntryB.payload]] := by
  decide

/-- C1 (amended): `flush_geometry` walks the queue once and dispatches
every entry individually — each "lines" entry goes to `render_line` as a
one-element queue and every other entry goes to `render_default` as a
one-element queue; consecutive "lines" entries are not merged into a
single batched call. -/
theorem c1_amended_flush_dispatches_each_entry_individually {V : Type}
    (dq : List (DrawQueueEntry V)) :
    flushGeometry dq = dq.map (fun e =>
      if e.stype = "lines" then Dispatch.renderLineD [e.payload]
      else Dispatch.renderDefaultD e.stype [e.payload]) := by
  induction dq with
  | nil => rfl
  | cons e rest ih =>
    simp only [flushGeometry] at ih
    simp [flushGeometry, flushAux, ih]

/-- C6: if shape A is rendered before shape B, the queue grows by A's
entries and then B's entries in insertion order, and flushing dispatches
all of A's draw calls before any of B's. -/
theorem c6_flush_preserves_insertion_order {V : Type} (cfg : RenderCfg V)
    (st st1 st2 : R2DState V) (A B : Shape V)
    (hA : renderS cfg st A = (st1, none)) (hB : renderS cfg st1 B = (st2, none)) :
    ∃ ea eb, st1.draw_queue = st.draw_queue ++ ea ∧
      st2.draw_queue = (st.draw_queue ++ ea) ++ eb ∧
      flushGeometry st2.draw_queue =
        flushGeometry st.draw_queue ++ flushGeometry ea ++ flushGeometry eb := by
  obtain ⟨ea, hea⟩ := renderS_ok_append cfg st st1 A hA
  obtain ⟨eb, heb⟩ := renderS_ok_append cfg st1 st2 B hB
  refine ⟨ea, eb, hea, by rw [heb, hea], ?_⟩
  rw [heb, hea, List.append_assoc, flushGeometry_append, flushGeometry_append,
    List.append_assoc]

theorem c6_witness :
    ∃ ea eb, stAfterA.draw_queue = (R2DState.mk [] 0 1).draw_queue ++ ea ∧
      stAfterAB.draw_queue = ((R2DState.mk [] 0 1).draw_queue ++ ea) ++ eb ∧
      flushGeometry stAfterAB.draw_queue =
        flushGeometry (R2DState.mk [] 0 1).draw_queue ++
          flushGeometry ea ++ flushGeometry eb :=
  c6_flush_preserves_insertion_order natCfgNoStroke (R2DState.mk [] 0 1) stAfterA stAfterAB
    triA triB (by decide) (by decide)

/-- C7: the end-of-frame swap of `draw_loop` exchanges only the front/back
role labels of the two framebuffer textures: after one frame the texture
that was front is back and vice versa, and after two consecutive frames
(with arbitrary drawing bodies) each role is held by the same underlying
texture as before. -/
theorem c7_framebuffer_swap_involution {V : Type}
    (body1 body2 : List (DrawQueueEntry V) → List (DrawQueueEntry V)) (st : R2DState V) :
    (drawLoopFrame body1 st).1.fbuffer_tex_front = st.fbuffer_tex_back ∧
    (drawLoopFrame body1 st).1.fbuffer_tex_back = st.fbuffer_tex_front ∧
    (drawLoopFrame body2 (drawLoopFrame body1 st).1).1.fbuffer_tex_front =
      st.fbuffer_tex_front ∧
    (drawLoopFrame body2 (drawLoopFrame body1 st).1).1.fbuffer_tex_back =
      st.fbuffer_tex_back := by
  simp [drawLoopFrame]

/-- C4: for a QUADS shape with 4N vertices (N ≥ 1), `_get_meshes` emits a
single "triangles" primitive whose index buffer is exactly the pattern
(0,1,2,0,2,3) offset by 4k for the k-th quad, has exactly 6N entries, and
never indexes past 4N-1. -/
theorem c4_quads_mesh_index_buffer {V : Type} (cfg : RenderCfg V) (s : Shape V) (N : Nat)
    (ht : s.shape_type = SType.QUADS) (hn : s.vertices.length = 4 * N) (_hN : 1 ≤ N) :
    getMeshes cfg s =
      Except.ok [RenderPrimitive.meshP "triangles" s.vertices (quadTarget N)] ∧
    (quadTarget N).length = 6 * N ∧
    ∀ i ∈ quadTarget N, i ≤ 4 * N - 1 := by
  refine ⟨?_, quadTarget_length N, quadTarget_le N⟩
  have h4 : 4 * N / 4 = N := by omega
  simp only [getMeshes, ht, hn, h4, npArangeStepN_zero_four, quads_idx_eval]
  rfl

theorem c4_witness :
    (getMeshes natCfg quadShape =
        Except.ok [RenderPrimitive.meshP "triangles" quadShape.vertices (quadTarget 1)] ∧
      (quadTarget 1).length = 6 * 1 ∧
      ∀ i ∈ quadTarget 1, i ≤ 4 * 1 - 1) ∧
    quadTarget 1 = [0, 1, 2, 0, 2, 3] :=
  ⟨c4_quads_mesh_index_buffer natCfg quadShape 1 rfl (by decide) (by decide), by decide⟩

/-- C9: `_get_borders` on a TRIANGLES shape with 3N vertices emits exactly
the 3 edges per triangle given by start indices (0, 1, 2, ...) and end
offsets (+1, +1, -2) per triangle: edges (3k, 3k+1), (3k+1, 3k+2),
(3k+2, 3k) for the k-th triangle, 3N edges in all. -/
theorem c9_triangles_border_edges {V : Type} (s : Shape V) (N : Nat)
    (ht : s.shape_type = SType.TRIANGLES) (hn : s.vertices.length = 3 * N) (hN : 1 ≤ N) :
    getBorders s = Except.ok [RenderPrimitive.linesP s.vertices (triEdgeTarget N)] ∧
    (triEdgeTarget N).length = 3 * N := by
  have hlenTile : (npArangeI (3 * N)).length = (npTileI [1, 1, -2] N).length := by
    rw [npArangeI_length, npTileI_length, List.length_cons, List.length_cons,
      List.length_cons, List.length_nil]
    omega
  have hlenEnd : (npArangeI (3 * N)).length = (triEndCol N).length := by
    rw [npArangeI_length, triEndCol_length]
  have hlenTarget : (triEdgeTarget N).length = 3 * N := by
    have h1 := congrArg List.length (tri_rows_eval N)
    rw [List.length_map, List.length_zip, npArangeI_length, triEndCol_length] at h1
    simp at h1
    omega
  refine ⟨?_, hlenTarget⟩
  have h3 : 3 * N / 3 = N := by omega
  have hsne : (npArangeI (3 * N)).isEmpty = false := by
    have : (npArangeI (3 * N)).length = 3 * N := npArangeI_length _
    cases hL : npArangeI (3 * N) with
    | nil => rw [hL] at this; simp at this; omega
    | cons a t => simp
  have hene : (triEndCol N).isEmpty = false := by
    have : (triEndCol N).length = 3 * N := triEndCol_length _
    cases hL : triEndCol N with
    | nil => rw [hL] at this; simp at this; omega
    | cons a t => simp
  simp only [getBorders, ht, hn, h3]
  rw [npAddI_of_length hlenTile, triEndCol_eval]
  simp only [Bind.bind, Except.bind]
  unfold getLineFromIndices
  rw [hsne, hene]
  simp only [Bool.false_eq_true, if_false, if_pos hlenEnd]
  rw [tri_rows_eval]
  rfl

theorem c9_witness :
    (getBorders triA = Except.ok [RenderPrimitive.linesP triA.vertices (triEdgeTarget 1)] ∧
      (triEdgeTarget 1).length = 3 * 1) ∧
    triEdgeTarget 1 = [[0, 1], [1, 2], [2, 0]] :=
  ⟨c9_triangles_border_edges triA 1 rfl (by decide) (by decide), by decide⟩

/-- C8: for an Arc shape with stroke enabled (and validation and mesh
generation succeeding), the border part of the primitive list is
mode-specific: arc modes "CHORD" and "OPEN" reuse the generic tessellated
borders of the shape, the unset mode emits one polyline over the vertices
excluding the first (center) vertex, and "PIE" emits one polyline over the
full vertex list including the center. -/
theorem c8_arc_border_mode_specific {V : Type} (cfg : RenderCfg V) (s : Shape V)
    (ha : s.is_arc = true) (hs : cfg.stroke_enabled = true)
    (hc : checkShape s = Except.ok ())
    (m : List (RenderPrimitive V)) (hm : getMeshes cfg s = Except.ok m)
    (bs : List (RenderPrimitive V)) (hb : getBorders s = Except.ok bs) :
    getRenderPrimitives cfg s = Except.ok
      ((if cfg.fill_enabled then m else []) ++
        (if s.arc_mode = some "CHORD" ∨ s.arc_mode = some "OPEN" then bs
         else if s.arc_mode = none then [getLineFromVerts (s.vertices.drop 1)]
         else if s.arc_mode = some "PIE" then [getLineFromVerts s.vertices]
         else [])) := by
  simp only [getRenderPrimitives, hc, ha, hs, if_true, Bind.bind, Except.bind]
  cases hf : cfg.fill_enabled with
  | true =>
    simp only [if_true, hm, hb]
    split_ifs <;> rfl
  | false =>
    simp only [Bool.false_eq_true, if_false, hb]
    split_ifs <;> rfl

theorem c8_witness :
    getRenderPrimitives natCfg arcPie = Except.ok
      ((if natCfg.fill_enabled then
          [RenderPrimitive.meshP "triangle_fan" arcPie.vertices (npArangeN 3)] else []) ++
        (if arcPie.arc_mode = some "CHORD" ∨ arcPie.arc_mode = some "OPEN" then
          [RenderPrimitive.linesP arcPie.vertices [[0, 1], [0, 2], [1, 2]]]
         else if arcPie.arc_mode = none then [getLineFromVerts (arcPie.vertices.drop 1)]
         else if arcPie.arc_mode = some "PIE" then [getLineFromVerts arcPie.vertices]
         else [])) :=
  c8_arc_border_mode_specific natCfg arcPie rfl rfl rfl
    [RenderPrimitive.meshP "triangle_fan" arcPie.vertices (npArangeN 3)] rfl
    [RenderPrimitive.linesP arcPie.vertices [[0, 1], [0, 2], [1, 2]]] rfl

theorem npArangeStepI_length (a b step : Nat) :
    (npArangeStepI a b step).length = (b - a + step - 1) / step := by
  rw [npArangeStepI, List.length_map, List.length_range]

theorem npArangeFromI_length (a b : Nat) : (npArangeFromI a b).length = b - a := by
  rw [npArangeFromI, List.length_map, List.length_range]

theorem isEmpty_false_of_length_pos {α : Type} {l : List α} (h : 0 < l.length) :
    l.isEmpty = false := by
  cases l with
  | nil => simp at h
  | cons a t => simp

theorem getLineFromIndices_error_of_length_ne {V : Type} (verts : List V) {a b : List Int}
    (ha : 0 < a.length) (hb : 0 < b.length) (hne : a.length ≠ b.length) :
    getLineFromIndices verts a b =
      Except.error "all the input array dimensions must match exactly" := by
  unfold getLineFromIndices
  rw [isEmpty_false_of_length_pos ha, isEmpty_false_of_length_pos hb]
  simp [hne]

/-- C10: a LINES shape with an odd vertex count (at least 2) and a
QUAD_STRIP shape with an odd vertex count (at least 4) both pass
`_check_shape` — no evenness constraint is checked for these kinds — yet
border generation fails when stacking the edge index columns: the start
column has exactly one more entry than the end column, so `np.hstack`
raises and no border primitive is produced. -/
theorem c10_odd_lines_quadstrip_validation_gap {V : Type} (s t : Shape V)
    (hsT : s.shape_type = SType.LINES) (hsOdd : s.vertices.length % 2 = 1)
    (hsMin : 2 ≤ s.vertices.length)
    (htT : t.shape_type = SType.QUAD_STRIP) (htOdd : t.vertices.length % 2 = 1)
    (htMin : 4 ≤ t.vertices.length) :
    (checkShape s = Except.ok () ∧
      (npArangeStepI 0 s.vertices.length 2).length =
        (npArangeStepI 1 s.vertices.length 2).length + 1 ∧
      getBorders s = Except.error "all the input array dimensions must match exactly") ∧
    (checkShape t = Except.ok () ∧
      (npArangeStepI 0 t.vertices.length 2 ++ npArangeI (t.vertices.length - 2)).length =
        (npArangeStepI 1 t.vertices.length 2 ++ npArangeFromI 2 t.vertices.length).length + 1 ∧
      getBorders t = Except.error "all the input array dimensions must match exactly") := by
  constructor
  · refine ⟨(checkShape_ok_iff s).mpr ?_, ?_, ?_⟩
    · rw [hsT]
      exact hsMin
    · rw [npArangeStepI_length, npArangeStepI_length]
      omega
    · simp only [getBorders, hsT]
      rw [getLineFromIndices_error_of_length_ne s.vertices
        (by rw [npArangeStepI_length]; omega)
        (by rw [npArangeStepI_length]; omega)
        (by rw [npArangeStepI_length, npArangeStepI_length]; omega)]
      rfl
  · refine ⟨(checkShape_ok_iff t).mpr ?_, ?_, ?_⟩
    · rw [htT]
      exact htMin
    · rw [List.length_append, List.length_append, npArangeStepI_length,
        npArangeStepI_length, npArangeI_length, npArangeFromI_length]
      omega
    · simp only [getBorders, htT]
      rw [getLineFromIndices_error_of_length_ne t.vertices
        (by rw [List.length_append, npArangeStepI_length, npArangeI_length]; omega)
        (by rw [List.length_append, npArangeStepI_length, npArangeFromI_length]; omega)
        (by rw [List.length_append, List.length_append, npArangeStepI_length,
            npArangeStepI_length, npArangeI_length, npArangeFromI_length]; omega)]
      rfl

theorem c10_witness :
    (checkShape oddLines = Except.ok () ∧
      (npArangeStepI 0 oddLines.vertices.length 2).length =
        (npArangeStepI 1 oddLines.vertices.length 2).length + 1 ∧
      getBorders oddLines =
        Except.error "all the input array dimensions must match exactly") ∧
    (checkShape oddQuadStrip = Except.ok () ∧
      (npArangeStepI 0 oddQuadStrip.vertices.length 2 ++
          npArangeI (oddQuadStrip.vertices.length - 2)).length =
        (npArangeStepI 1 oddQuadStrip.vertices.length 2 ++
          npArangeFromI 2 oddQuadStrip.vertices.length).length + 1 ∧
      getBorders oddQuadStrip =
        Except.error "all the input array dimensions must match exactly") :=
  c10_odd_lines_quadstrip_validation_gap oddLines oddQuadStrip rfl (by decide) (by decide)
    rfl (by decide) (by decide)

/-- C5: for every queued line entry and every consecutive vertex pair
(i, i+1) of each of its polyline segments, `render_line` emits exactly one
six-vertex chunk: the accumulated attribute arrays equal the in-order
concatenation of `pairData` chunks over all pairs, where each chunk
carries marker values (1,-1,-1,-1,1,-1) and side values (1,1,-1,1,-1,-1)
in that fixed order and previous/next neighbor positions clamped to the
vertex's own position when no neighbor exists in the segment; in
particular the markers and side arrays are those fixed six-value patterns
repeated once per pair, and the current-position array holds exactly 6
entries per pair (so a single 2-vertex segment yields exactly 6 output
vertices). -/
theorem c5_render_line_six_vertices_per_pair {V : Type} [Inhabited V]
    (queue : List (LinePayload V)) :
    renderLineData queue = joinChunks ((linePairs queue).map pairDataT) ∧
    (renderLineData queue).markers =
      (linePairs queue).flatMap (fun _ => [1, -1, -1, -1, 1, -1]) ∧
    (renderLineData queue).side =
      (linePairs queue).flatMap (fun _ => [1, 1, -1, 1, -1, -1]) ∧
    (renderLineData queue).posCurr.length = 6 * (linePairs queue).length := by
  refine ⟨renderLineData_eq_join queue, ?_, ?_, ?_⟩ <;> rw [renderLineData_eq_join queue]
  · exact joinChunks_markers_pattern _
  · exact joinChunks_side_pattern _
  · exact joinChunks_posCurr_length _

end P5
